import Mathlib

/-!
# script.js: guarded-operation wrappers

A shallow embedding of the ten wrappers of `script.js` and of the part of the
JavaScript semantics they rely on.

Modelling boundary.

* Values are the primitives, functions (the built-in constructors, known by
  name), error objects (class, message, stack) and plain objects given by a
  table of data properties.  The message of an error object is any value: the
  runtime and `new XError(msg)` make it a string, an assignment to
  `e.message` makes it whatever was assigned.  Accessor properties and proxies
  are outside the model; of the members inherited from the built-in
  prototypes only `constructor` is modelled.
* Numbers are the integer-valued ones, printed in plain decimal. Strings are
  texts of characters of the Basic Multilingual Plane, so that a character is
  one code unit.
* A host primitive (`eval`, the wrapped callable, `decodeURI`,
  `querySelector`, `fetch`, `response.json`, `JSON.parse`) is a parameter that
  gives the completion of the call: a normal value (`Except.ok`) or a thrown
  value (`Except.error`).  A thrown value is any value, not only an error
  object.
* The console is a trace: every wrapper returns, next to its completion, the
  list of console calls its own statements made, in order.  For `safeFetch`
  the trace also records the two network steps.
-/

namespace Script

/-- The built-in error classes. Every class other than `Error` extends `Error`. -/
inductive ErrorClass
  | Error
  | EvalError
  | RangeError
  | ReferenceError
  | SyntaxError
  | TypeError
  | URIError
  deriving DecidableEq, Repr

/-- The `name` of an error class. -/
def ErrorClass.name : ErrorClass → String
  | .Error => "Error"
  | .EvalError => "EvalError"
  | .RangeError => "RangeError"
  | .ReferenceError => "ReferenceError"
  | .SyntaxError => "SyntaxError"
  | .TypeError => "TypeError"
  | .URIError => "URIError"

/-- JavaScript values. -/
inductive JSValue
  | undefined
  | null
  | boolean (b : Bool)
  | number (n : Int)
  | string (s : String)
  | symbol (description : String)
  | func (name : String)
  | error (cls : ErrorClass) (message : JSValue) (stack : String)
  | object (props : List (String × JSValue))

/-- Completion of an evaluation: `ok v` is a normal completion with value `v`,
`error e` is a throw completion with thrown value `e`. -/
abbrev Completion (α : Type) := Except JSValue α

/-- The console calls of the script, and the two network steps of `safeFetch`. -/
inductive Event
  | group (args : List JSValue)
  | groupEnd
  | log (args : List JSValue)
  | error (args : List JSValue)
  | request (url : String)
  | decode

/-- Strict equality with `undefined`. -/
def JSValue.isUndefined : JSValue → Bool
  | .undefined => true
  | _ => false

/-- Strict equality with `null`. -/
def JSValue.isNull : JSValue → Bool
  | .null => true
  | _ => false

/-- ToBoolean. -/
def JSValue.truthy : JSValue → Bool
  | .undefined => false
  | .null => false
  | .boolean b => b
  | .number n => n != 0
  | .string s => s != ""
  | _ => true

/-- An error object made by `new cls(message)` or by the runtime. The stack
text is engine-defined; its first line is kept. -/
def newError (cls : ErrorClass) (message : String) : JSValue :=
  .error cls (.string message) (cls.name ++ ": " ++ message)

/-- The operator `v instanceof cls` for a built-in error class `cls`. -/
def instanceOf (v : JSValue) (cls : ErrorClass) : Bool :=
  match v with
  | .error c _ _ => c == cls || cls == .Error
  | _ => false

/-- The character of the string `s` that the property key `key` names, when
the key is the decimal text of an index below the length. -/
def stringIndex (s key : String) : Option Char :=
  match key.toNat? with
  | some i => if toString i = key then s.data[i]? else none
  | none => none

/-- Property read `v[key]`. Reading a property of `null` or `undefined`
throws a TypeError; every other read completes normally. -/
def getProp (v : JSValue) (key : String) : Completion JSValue :=
  match v with
  | .undefined => .error (newError .TypeError "Cannot read properties of undefined")
  | .null => .error (newError .TypeError "Cannot read properties of null")
  | .boolean _ => .ok (if key = "constructor" then .func "Boolean" else .undefined)
  | .number _ => .ok (if key = "constructor" then .func "Number" else .undefined)
  | .string s =>
    .ok (if key = "constructor" then .func "String"
      else if key = "length" then .number s.length
      else match stringIndex s key with
        | some c => .string (String.singleton c)
        | none => .undefined)
  | .symbol d =>
    .ok (if key = "constructor" then .func "Symbol"
      else if key = "description" then .string d else .undefined)
  | .func name =>
    .ok (if key = "constructor" then .func "Function"
      else if key = "name" then .string name else .undefined)
  | .error cls message stack =>
    .ok (if key = "constructor" then .func cls.name
      else if key = "name" then .string cls.name
      else if key = "message" then message
      else if key = "stack" then .string stack else .undefined)
  | .object props =>
    match props.lookup key with
    | some x => .ok x
    | none => .ok (if key = "constructor" then .func "Object" else .undefined)

/-- ToString, as a template literal applies it. A symbol cannot be converted
and throws a TypeError. An error object prints its class name and its message,
which is converted in turn. -/
def toStr : JSValue → Completion String
  | .undefined => .ok "undefined"
  | .null => .ok "null"
  | .boolean b => .ok (if b then "true" else "false")
  | .number n => .ok (toString n)
  | .string s => .ok s
  | .symbol _ => .error (newError .TypeError "Cannot convert a Symbol value to a string")
  | .func name => .ok ("function " ++ name ++ "() \x7b [native code] \x7d")
  | .error cls message _ =>
    match message with
    | .undefined => .ok cls.name
    | m =>
      match toStr m with
      | .ok text => .ok (if text = "" then cls.name else cls.name ++ ": " ++ text)
      | .error e => .error e
  | .object _ => .ok "[object Object]"

/-- The template literal made of the fixed text `lead` followed by one
substitution of value `v`. -/
def templateLit (lead : String) (v : JSValue) : Completion String :=
  match toStr v with
  | .ok s => .ok (lead ++ s)
  | .error e => .error e

/-- The text that every handler builds: the template literal of `lead` and
`error.message`. Both the property read and the conversion can throw. -/
def messageLine (lead : String) (error : JSValue) : Completion String :=
  match getProp error "message" with
  | .ok m => templateLit lead m
  | .error e => .error e

/-- A parameter with a default value: the default is taken when the argument
is omitted (`none`) or is `undefined`. -/
def paramDefault (arg : Option JSValue) (dflt : JSValue) : JSValue :=
  match arg with
  | none => dflt
  | some .undefined => dflt
  | some v => v

/-- Worker of `split`: `acc` holds the characters of the current segment in
reverse. -/
def splitAux (sep : Char) : List Char → List Char → List String
  | [], acc => [String.mk acc.reverse]
  | c :: cs, acc =>
    if c = sep then String.mk acc.reverse :: splitAux sep cs []
    else splitAux sep cs (c :: acc)

/-- The method `s.split(sep)` for a one-character separator. -/
def split (s : String) (sep : Char) : List String :=
  splitAux sep s.data []

/-! ## The wrappers -/

/-- Function `checkSyntax` (section 1 of the script). -/
def checkSyntax (eval : String → Completion JSValue) (code : String) : Completion JSValue :=
  match eval code with
  | .ok _ => .ok (.string "No syntax errors found.")
  | .error error =>
    if instanceOf error .SyntaxError then
      match messageLine "Syntax Error: " error with
      | .ok line => .ok (.string line)
      | .error e => .error e
    else
      match messageLine "Other error: " error with
      | .ok line => .ok (.string line)
      | .error e => .error e

/-- Function `handleTypeError` (section 2). -/
def handleTypeError (fn : List JSValue → Completion JSValue) (args : List JSValue) :
    Completion JSValue × List Event :=
  match fn args with
  | .ok v => (.ok v, [])
  | .error error =>
    if instanceOf error .TypeError then
      match messageLine "Type Error: " error with
      | .ok line => (.ok .null, [.error [.string line]])
      | .error e => (.error e, [])
    else (.error error, [])

/-- The loop of `safeAccess` and the return that follows it: `result` is the
loop variable, the list holds the keys still to visit. -/
def safeAccess.walk (defaultValue : JSValue) : List String → JSValue → Completion JSValue
  | [], result => .ok (if result.isUndefined then defaultValue else result)
  | key :: keys, result =>
    if result.isNull || result.isUndefined then .ok defaultValue
    else
      match getProp result key with
      | .ok next => safeAccess.walk defaultValue keys next
      | .error e => .error e

/-- Function `safeAccess` (section 3). -/
def safeAccess (obj : JSValue) (path : String) (defaultArg : Option JSValue) :
    Completion JSValue × List Event :=
  let defaultValue := paramDefault defaultArg .null
  match safeAccess.walk defaultValue (split path '.') obj with
  | .ok v => (.ok v, [])
  | .error error =>
    if instanceOf error .ReferenceError then
      match messageLine "Reference Error: " error with
      | .ok line => (.ok defaultValue, [.error [.string line]])
      | .error e => (.error e, [])
    else (.error error, [])

/-- Function `handleRangeError` (section 4). -/
def handleRangeError (fn : List JSValue → Completion JSValue) (args : List JSValue) :
    Completion JSValue × List Event :=
  match fn args with
  | .ok v => (.ok v, [])
  | .error error =>
    if instanceOf error .RangeError then
      match messageLine "Range Error: " error with
      | .ok line => (.ok .null, [.error [.string line]])
      | .error e => (.error e, [])
    else (.error error, [])

/-- Function `safeDecodeURI` (section 5). -/
def safeDecodeURI (decodeURI : String → Completion JSValue) (uri : String) :
    Completion JSValue × List Event :=
  match decodeURI uri with
  | .ok v => (.ok v, [])
  | .error error =>
    if instanceOf error .URIError then
      match messageLine "URI Error: " error with
      | .ok line => (.ok (.string uri), [.error [.string line]])
      | .error e => (.error e, [])
    else (.error error, [])

/-- Function `safeEval` (section 6). -/
def safeEval (eval : String → Completion JSValue) (code : String) :
    Completion JSValue × List Event :=
  match eval code with
  | .ok v => (.ok v, [])
  | .error error =>
    match messageLine "Eval Error: " error with
    | .ok line => (.ok .null, [.error [.string line]])
    | .error e => (.error e, [])

/-- Function `safeQuerySelector` (section 7). `document` is the global the
parameter default reads; `querySelector parent selector` is the completion of
`parent.querySelector(selector)`. -/
def safeQuerySelector (document : JSValue)
    (querySelector : JSValue → String → Completion JSValue)
    (selector : String) (parentArg : Option JSValue) : Completion JSValue × List Event :=
  let parent := paramDefault parentArg document
  let attempt : Completion JSValue :=
    match querySelector parent selector with
    | .ok element =>
      if !element.truthy then
        .error (newError .Error ("Element with selector \"" ++ selector ++ "\" not found"))
      else .ok element
    | .error e => .error e
  match attempt with
  | .ok v => (.ok v, [])
  | .error error =>
    match messageLine "DOM Error: " error with
    | .ok line => (.ok .null, [.error [.string line]])
    | .error e => (.error e, [])

/-- A response as `safeFetch` uses it: the `ok` flag, the status code, and the
completion that awaiting `response.json()` gives. -/
structure Response where
  ok : Bool
  status : Nat
  json : Completion JSValue

/-- Function `safeFetch` (section 8). The completion is the settlement of the
returned promise: `ok v` is resolved with `v`, `error e` is rejected with `e`.
`fetch url options` is the settlement of awaiting `fetch(url, options)`. -/
def safeFetch (fetch : String → JSValue → Completion Response)
    (url : String) (optionsArg : Option JSValue) : Completion JSValue × List Event :=
  let options := paramDefault optionsArg (.object [])
  let attempt : Completion JSValue × List Event :=
    match fetch url options with
    | .error e => (.error e, [.request url])
    | .ok response =>
      if !response.ok then
        (.error (newError .Error ("HTTP error! status: " ++ toString response.status)),
          [.request url])
      else (response.json, [.request url, .decode])
  match attempt with
  | (.ok v, trace) => (.ok v, trace)
  | (.error error, trace) =>
    match messageLine "Network Error: " error with
    | .ok line => (.ok .null, trace ++ [.error [.string line]])
    | .error e => (.error e, trace)

/-- Function `safeJSONParse` (section 9). `parse` is `JSON.parse`. -/
def safeJSONParse (parse : String → Completion JSValue)
    (jsonString : String) (defaultArg : Option JSValue) : Completion JSValue × List Event :=
  let defaultValue := paramDefault defaultArg (.object [])
  match parse jsonString with
  | .ok v => (.ok v, [])
  | .error error =>
    if instanceOf error .SyntaxError then
      match messageLine "JSON Parse Error: " error with
      | .ok line => (.ok defaultValue, [.error [.string line]])
      | .error e => (.error e, [])
    else (.error error, [])

/-- The `try` and `catch` blocks of `debugCode`: the completion they end with
and the console calls they made. The four `console.error` calls of the handler
run in order; the arguments of a call are evaluated before the call is made. -/
def debugCode.attempt (eval : String → Completion JSValue) (codeBlock : String) :
    Completion JSValue × List Event :=
  match eval codeBlock with
  | .ok result => (.ok result, [.log [.string "Success:", result]])
  | .error error =>
    match getProp error "constructor" with
    | .error e => (.error e, [])
    | .ok ctor =>
      match getProp ctor "name" with
      | .error e => (.error e, [])
      | .ok typeName =>
        match getProp error "message" with
        | .error e => (.error e, [.error [.string "Error Type:", typeName]])
        | .ok message =>
          match getProp error "stack" with
          | .error e =>
            (.error e, [.error [.string "Error Type:", typeName],
              .error [.string "Error Message:", message]])
          | .ok stack =>
            (.ok .null, [.error [.string "Error Type:", typeName],
              .error [.string "Error Message:", message],
              .error [.string "Stack Trace:", stack],
              .error [.string "Code that caused error:", .string codeBlock]])

/-- Function `debugCode` (the utility after the listeners): the group is
opened, the `try` and `catch` blocks run, and the `finally` block closes the
group whatever their completion is. -/
def debugCode (eval : String → Completion JSValue) (codeBlock : String) :
    Completion JSValue × List Event :=
  let body := debugCode.attempt eval codeBlock
  (body.1, [Event.group [.string "Debugging Code Block"]] ++ body.2 ++ [Event.groupEnd])

/-! ## Statements that follow the words of the specification -/

/-- One indexing step of a path walk, in the words of the specification: the
walk stops (`none`) as soon as the value about to be indexed is null or
undefined, otherwise the value is indexed by the segment. -/
def indexStep (current : Option JSValue) (segment : String) : Option JSValue :=
  match current with
  | none => none
  | some v => if v.isNull || v.isUndefined then none else (getProp v segment).toOption

/-- The value that indexing `obj` by the segments in order reaches, or `none`
when a null or undefined value was about to be indexed. -/
def reached (obj : JSValue) (segments : List String) : Option JSValue :=
  segments.foldl indexStep (some obj)

/-- The result the specification gives to a nested lookup: the default `d`
when the walk stopped or reached `undefined`, otherwise the value reached. -/
def lookupSpec (obj : JSValue) (segments : List String) (d : JSValue) : JSValue :=
  match reached obj segments with
  | none => d
  | some v => if v.isUndefined then d else v

/-- The object of the usage example of the script: a user whose name is John. -/
def exampleObj : JSValue :=
  .object [("user", .object [("name", .string "John")])]

/-- Whether an event is a `console.group` call. -/
def Event.isGroup : Event → Bool
  | .group _ => true
  | _ => false

/-- Whether an event is a `console.groupEnd` call. -/
def Event.isGroupEnd : Event → Bool
  | .groupEnd => true
  | _ => false

/-- Whether an event is the body decode step of `safeFetch`. -/
def Event.isDecode : Event → Bool
  | .decode => true
  | _ => false

/-! ## Concrete host primitives used to run the wrappers on examples -/

/-- The host `eval` tabulated at a few source texts: the number literal, three
throw statements, and an unbalanced parenthesis that the parser rejects.
Texts outside the table are not used. -/
def exampleEval (code : String) : Completion JSValue :=
  if code = "1" then .ok (.number 1)
  else if code = "throw null" then .error .null
  else if code = "throw undefined" then .error .undefined
  else if code = "throw 42" then .error (.number 42)
  else if code = "(" then .error (newError .SyntaxError "Unexpected end of input")
  else .ok .undefined

/-- A callable that throws a TypeError whatever its arguments are. -/
def throwsTypeError (_args : List JSValue) : Completion JSValue :=
  .error (newError .TypeError "x is not a function")

/-- A callable that throws a RangeError whatever its arguments are. -/
def throwsRangeError (_args : List JSValue) : Completion JSValue :=
  .error (newError .RangeError "Invalid array length")

/-- A callable that makes a TypeError, assigns a symbol to its `message` and
throws it. -/
def throwsTypeErrorSymbol (_args : List JSValue) : Completion JSValue :=
  .error (.error .TypeError (.symbol "m") "TypeError: x")

/-- A callable that makes a RangeError, assigns a symbol to its `message` and
throws it. -/
def throwsRangeErrorSymbol (_args : List JSValue) : Completion JSValue :=
  .error (.error .RangeError (.symbol "m") "RangeError: x")

/-- The built-in `JSON.parse` tabulated at the two texts of the example: the
well-formed text parses to the mapping from name to John, the malformed text
raises a SyntaxError. Texts outside the table are not used. -/
def exampleJSONParse (text : String) : Completion JSValue :=
  if text = "\x7b\"name\":\"John\"\x7d" then .ok (.object [("name", .string "John")])
  else .error (newError .SyntaxError "Unexpected token b in JSON at position 1")

/-- A document with one element, whose id is `myElement`: the lookup of the
selector `#myElement` gives the element, the lookup of any other selector
gives null. -/
def exampleQuerySelector (_parent : JSValue) (selector : String) : Completion JSValue :=
  if selector = "#myElement" then .ok (.object [("id", .string "myElement")])
  else .ok .null

/-- A `fetch` whose request was aborted with the reason null: the promise is
rejected with the reason. -/
def abortedFetch (_url : String) (_options : JSValue) : Completion Response :=
  .error .null

/-- A `fetch` that resolves with a 404 response, whose body would decode to
an empty mapping if it were read. -/
def notFoundFetch (_url : String) (_options : JSValue) : Completion Response :=
  .ok { ok := false, status := 404, json := .ok (.object []) }

/-- A `fetch` that resolves with a 200 response whose body decodes to the
mapping from name to John. -/
def okFetch (_url : String) (_options : JSValue) : Completion Response :=
  .ok { ok := true, status := 200, json := .ok (.object [("name", .string "John")]) }

/-- A `fetch` that resolves with a 200 response whose body is not JSON: the
decode rejects with a SyntaxError. -/
def badBodyFetch (_url : String) (_options : JSValue) : Completion Response :=
  .ok { ok := true, status := 200,
        json := .error (newError .SyntaxError "Unexpected token < in JSON at position 0") }

/-- A `fetch` whose request fails at the network level: it rejects with a
TypeError. -/
def failedFetch (_url : String) (_options : JSValue) : Completion Response :=
  .error (newError .TypeError "Failed to fetch")

/-! ## Lemmas -/

theorem foldl_indexStep_none (segments : List String) :
    segments.foldl indexStep none = none := by
  induction segments with
  | nil => rfl
  | cons s rest ih => simpa [List.foldl, indexStep] using ih

theorem getProp_ok_of_not_nullish (v : JSValue) (key : String)
    (h : (v.isNull || v.isUndefined) = false) : ∃ x, getProp v key = .ok x := by
  cases v with
  | undefined => simp [JSValue.isNull, JSValue.isUndefined] at h
  | null => simp [JSValue.isNull, JSValue.isUndefined] at h
  | object props =>
    simp only [getProp]
    cases props.lookup key with
    | none => exact ⟨_, rfl⟩
    | some x => exact ⟨_, rfl⟩
  | _ => exact ⟨_, rfl⟩

theorem walk_eq_lookupSpec (d : JSValue) (segments : List String) (v : JSValue) :
    safeAccess.walk d segments v = .ok (lookupSpec v segments d) := by
  induction segments generalizing v with
  | nil => simp [safeAccess.walk, lookupSpec, reached]
  | cons s rest ih =>
    unfold safeAccess.walk
    cases h : (v.isNull || v.isUndefined)
    · obtain ⟨x, hx⟩ := getProp_ok_of_not_nullish v s h
      simp only [Bool.false_eq_true, ↓reduceIte, hx, ih x]
      simp [lookupSpec, reached, List.foldl, indexStep, h, hx, Except.toOption]
    · simp [lookupSpec, reached, List.foldl, indexStep, h, foldl_indexStep_none]

theorem paramDefault_null_isUndefined (arg : Option JSValue) :
    (paramDefault arg .null).isUndefined = false := by
  unfold paramDefault
  split <;> simp_all [JSValue.isUndefined]

theorem lookupSpec_isUndefined (obj : JSValue) (segments : List String) (d : JSValue)
    (hd : d.isUndefined = false) : (lookupSpec obj segments d).isUndefined = false := by
  unfold lookupSpec
  cases reached obj segments with
  | none => simpa using hd
  | some v =>
    cases h : v.isUndefined <;> simp [h, hd]

/-! ## Claims -/

/-- C1: for every root value, path string and default argument, `safeAccess`
splits the path on the dot and indexes the root by the segments in order; it
returns the default as soon as the value about to be indexed is null or
undefined, also when the root itself is null, and when the value reached
after the last segment is undefined; otherwise it returns the value reached.
The default is the argument when one is supplied and null when none is (an
argument passed as undefined counts as not supplied). Nothing is logged. On
the example object the path user.name gives John and the path user.age gives
null. -/
theorem safeAccess_walks_path :
    paramDefault none .null = .null ∧
    (∀ v : JSValue, v ≠ .undefined → paramDefault (some v) .null = v) ∧
    (∀ (obj : JSValue) (path : String) (d : Option JSValue),
      safeAccess obj path d
        = (.ok (lookupSpec obj (split path '.') (paramDefault d .null)), [])) ∧
    (∀ (path : String) (d : Option JSValue),
      safeAccess .null path d = (.ok (paramDefault d .null), [])) ∧
    safeAccess exampleObj "user.name" none = (.ok (.string "John"), []) ∧
    safeAccess exampleObj "user.age" none = (.ok .null, []) := by
  have main : ∀ (obj : JSValue) (path : String) (d : Option JSValue),
      safeAccess obj path d
        = (.ok (lookupSpec obj (split path '.') (paramDefault d .null)), []) := by
    intro obj path d
    simp [safeAccess, walk_eq_lookupSpec]
  refine ⟨rfl, ?_, main, ?_, rfl, rfl⟩
  · intro v hv
    cases v <;> simp_all [paramDefault]
  intro path d
  rw [main]
  have hne : ∃ s rest, split path '.' = s :: rest := by
    unfold split
    generalize ([] : List Char) = acc
    induction path.data generalizing acc with
    | nil => exact ⟨_, _, rfl⟩
    | cons c cs ih =>
      unfold splitAux
      split
      · exact ⟨_, _, rfl⟩
      · exact ih _
  obtain ⟨s, rest, hs⟩ := hne
  simp [hs, lookupSpec, reached, List.foldl, indexStep, JSValue.isNull, foldl_indexStep_none]

/-- C10: for every root value, path string and default argument (omitted,
passed as undefined, or any other value), `safeAccess` returns, and the value
it returns is never undefined: it is the default, which the parameter default
makes null whenever the argument is omitted or undefined, or a value the walk
reached that is not undefined. -/
theorem safeAccess_never_undefined (obj : JSValue) (path : String) (d : Option JSValue) :
    paramDefault none .null = .null ∧
    paramDefault (some .undefined) .null = .null ∧
    paramDefault d .null ≠ .undefined ∧
    ∃ v, (safeAccess obj path d).1 = .ok v ∧ v ≠ .undefined ∧
      (v = paramDefault d .null ∨ reached obj (split path '.') = some v) := by
  have hd := paramDefault_null_isUndefined d
  have ne_of : ∀ w : JSValue, w.isUndefined = false → w ≠ .undefined := by
    intro w hw h
    rw [h] at hw
    simp [JSValue.isUndefined] at hw
  refine ⟨rfl, rfl, ne_of _ hd, lookupSpec obj (split path '.') (paramDefault d .null), ?_, ?_, ?_⟩
  · simp [safeAccess, walk_eq_lookupSpec]
  · exact ne_of _ (lookupSpec_isUndefined _ _ _ hd)
  · unfold lookupSpec
    cases reached obj (split path '.') with
    | none => exact Or.inl rfl
    | some v =>
      cases h : v.isUndefined
      · right; simp [h]
      · left; simp [h]

theorem messageLine_error (lead : String) (cls : ErrorClass) (message stack : String) :
    messageLine lead (.error cls (.string message) stack) = .ok (lead ++ message) := by
  simp [messageLine, getProp, templateLit, toStr]

/-- C2 at the failing input: the callable throws a TypeError (a RangeError)
whose `message` is a symbol. The value is an instance of the target class, so
the handler builds its log line; the template literal cannot convert the
symbol and raises a TypeError inside the handler, which propagates to the
caller: the wrapper does not return null. -/
theorem guarded_call_raises_on_symbol_message :
    throwsTypeErrorSymbol [] = .error (.error .TypeError (.symbol "m") "TypeError: x") ∧
    instanceOf (.error .TypeError (.symbol "m") "TypeError: x") .TypeError = true ∧
    handleTypeError throwsTypeErrorSymbol []
      = (.error (newError .TypeError "Cannot convert a Symbol value to a string"), []) ∧
    throwsRangeErrorSymbol [] = .error (.error .RangeError (.symbol "m") "RangeError: x") ∧
    instanceOf (.error .RangeError (.symbol "m") "RangeError: x") .RangeError = true ∧
    handleRangeError throwsRangeErrorSymbol []
      = (.error (newError .TypeError "Cannot convert a Symbol value to a string"), []) := by
  refine ⟨rfl, rfl, ?_, rfl, rfl, ?_⟩
  · simp [handleTypeError, throwsTypeErrorSymbol, instanceOf, messageLine, getProp,
      templateLit, toStr]
  · simp [handleRangeError, throwsRangeErrorSymbol, instanceOf, messageLine, getProp,
      templateLit, toStr]

/-- What the two guarded calls do on their other paths: a failure of the
target class whose message is a string gives null, with one line logged; a
thrown value that is not an instance of the target class is raised again,
unchanged, with nothing logged. -/
theorem guarded_call_other_paths (fn : List JSValue → Completion JSValue)
    (args : List JSValue) :
    (∀ message stack, fn args = .error (.error .TypeError (.string message) stack) →
      handleTypeError fn args
        = (.ok .null, [.error [.string ("Type Error: " ++ message)]])) ∧
    (∀ e, fn args = .error e → instanceOf e .TypeError = false →
      handleTypeError fn args = (.error e, [])) ∧
    (∀ message stack, fn args = .error (.error .RangeError (.string message) stack) →
      handleRangeError fn args
        = (.ok .null, [.error [.string ("Range Error: " ++ message)]])) ∧
    (∀ e, fn args = .error e → instanceOf e .RangeError = false →
      handleRangeError fn args = (.error e, [])) := by
  refine ⟨?_, ?_, ?_, ?_⟩
  · intro message stack h
    simp [handleTypeError, h, instanceOf, messageLine_error]
  · intro e h hk
    simp [handleTypeError, h, hk]
  · intro message stack h
    simp [handleRangeError, h, instanceOf, messageLine_error]
  · intro e h hk
    simp [handleRangeError, h, hk]

/-- The other paths of the two guarded calls on concrete callables. -/
theorem guarded_call_other_paths_examples :
    (handleTypeError throwsTypeError []).1 = .ok .null ∧
    handleRangeError throwsTypeError []
      = (.error (newError .TypeError "x is not a function"), []) ∧
    (handleRangeError throwsRangeError []).1 = .ok .null ∧
    handleTypeError throwsRangeError []
      = (.error (newError .RangeError "Invalid array length"), []) := by
  refine ⟨?_, ?_, ?_, ?_⟩
  · rw [(guarded_call_other_paths throwsTypeError []).1 _ _ rfl]
  · exact (guarded_call_other_paths throwsTypeError []).2.2.2 _ rfl rfl
  · rw [(guarded_call_other_paths throwsRangeError []).2.2.1 _ _ rfl]
  · exact (guarded_call_other_paths throwsRangeError []).2.1 _ rfl rfl

/-- C3: when `JSON.parse` accepts the text, `safeJSONParse` returns the parsed
value and logs nothing; when `JSON.parse` raises a syntax failure (the
SyntaxError the runtime makes, whose message is a string), it returns the
default, which is an empty mapping when no default is supplied, and does not
raise. -/
theorem safeJSONParse_parsed_or_default (parse : String → Completion JSValue)
    (text : String) (d : Option JSValue) :
    paramDefault none (.object []) = .object [] ∧
    (∀ v, parse text = .ok v → safeJSONParse parse text d = (.ok v, [])) ∧
    (∀ message stack, parse text = .error (.error .SyntaxError (.string message) stack) →
      (safeJSONParse parse text d).1 = .ok (paramDefault d (.object []))) := by
  refine ⟨rfl, ?_, ?_⟩
  · intro v hv
    simp [safeJSONParse, hv]
  · intro message stack he
    simp [safeJSONParse, he, instanceOf, messageLine_error]

/-- Witness of C3: the well-formed example text gives the mapping from name to
John; the malformed text gives the empty mapping without a default and the
supplied default with one. -/
theorem safeJSONParse_parsed_or_default_witness :
    safeJSONParse exampleJSONParse "\x7b\"name\":\"John\"\x7d" none
      = (.ok (.object [("name", .string "John")]), []) ∧
    (safeJSONParse exampleJSONParse "\x7bbad" none).1 = .ok (.object []) ∧
    (safeJSONParse exampleJSONParse "\x7bbad" (some (.string "fallback"))).1
      = .ok (.string "fallback") :=
  ⟨(safeJSONParse_parsed_or_default exampleJSONParse _ none).2.1 _ rfl,
   (safeJSONParse_parsed_or_default exampleJSONParse "\x7bbad" none).2.2 _ _ rfl,
   (safeJSONParse_parsed_or_default exampleJSONParse "\x7bbad"
      (some (.string "fallback"))).2.2 _ _ rfl⟩

/-- C6: for every selector and scope root (the document when none is given),
when the lookup finds no element (`querySelector` gives null)
`safeQuerySelector` returns null and does not raise; when it finds an element,
`safeQuerySelector` returns that element. -/
theorem safeQuerySelector_null_or_element (document : JSValue)
    (querySelector : JSValue → String → Completion JSValue)
    (selector : String) (parentArg : Option JSValue) :
    (querySelector (paramDefault parentArg document) selector = .ok .null →
      (safeQuerySelector document querySelector selector parentArg).1 = .ok .null) ∧
    (∀ element, querySelector (paramDefault parentArg document) selector = .ok element →
      element.truthy = true →
      safeQuerySelector document querySelector selector parentArg = (.ok element, [])) := by
  refine ⟨?_, ?_⟩
  · intro h
    simp [safeQuerySelector, h, JSValue.truthy, newError, messageLine_error]
  · intro element h ht
    simp [safeQuerySelector, h, ht]

/-- Witness of C6: in the example document the selector of the element gives
the element and another selector gives null. -/
theorem safeQuerySelector_null_or_element_witness :
    (safeQuerySelector (.object []) exampleQuerySelector "#missing" none).1 = .ok .null ∧
    safeQuerySelector (.object []) exampleQuerySelector "#myElement" none
      = (.ok (.object [("id", .string "myElement")]), []) :=
  ⟨(safeQuerySelector_null_or_element (.object []) exampleQuerySelector "#missing" none).1 rfl,
   (safeQuerySelector_null_or_element (.object []) exampleQuerySelector "#myElement"
      none).2 _ rfl rfl⟩

/-- C9: for every code block and every completion of its evaluation, the
trace of `debugCode` starts with the one `console.group` call, ends with the
one `console.groupEnd` call, and holds no other call of either kind. The three
exit paths are run: evaluation succeeds; evaluation raises and the diagnostic
is logged; the catch handler itself raises. -/
theorem debugCode_group_balanced :
    (∀ (eval : String → Completion JSValue) (codeBlock : String),
      (debugCode eval codeBlock).2.head? = some (.group [.string "Debugging Code Block"]) ∧
      (debugCode eval codeBlock).2.getLast? = some .groupEnd ∧
      (debugCode eval codeBlock).2.countP Event.isGroup = 1 ∧
      (debugCode eval codeBlock).2.countP Event.isGroupEnd = 1) ∧
    debugCode exampleEval "1"
      = (.ok (.number 1),
         [.group [.string "Debugging Code Block"],
          .log [.string "Success:", .number 1],
          .groupEnd]) ∧
    debugCode exampleEval "throw 42"
      = (.ok .null,
         [.group [.string "Debugging Code Block"],
          .error [.string "Error Type:", .string "Number"],
          .error [.string "Error Message:", .undefined],
          .error [.string "Stack Trace:", .undefined],
          .error [.string "Code that caused error:", .string "throw 42"],
          .groupEnd]) ∧
    debugCode exampleEval "throw null"
      = (.error (newError .TypeError "Cannot read properties of null"),
         [.group [.string "Debugging Code Block"], .groupEnd]) := by
  refine ⟨?_, rfl, rfl, rfl⟩
  intro eval codeBlock
  have hbody : ∀ ev ∈ (debugCode.attempt eval codeBlock).2,
      ev.isGroup = false ∧ ev.isGroupEnd = false := by
    intro ev hev
    unfold debugCode.attempt at hev
    split at hev
    · simp at hev; subst hev; exact ⟨rfl, rfl⟩
    · split at hev
      · simp at hev
      · split at hev
        · simp at hev
        · split at hev
          · simp at hev; subst hev; exact ⟨rfl, rfl⟩
          · split at hev
            · simp at hev
              rcases hev with h | h <;> subst h <;> exact ⟨rfl, rfl⟩
            · simp at hev
              rcases hev with h | h | h | h <;> subst h <;> exact ⟨rfl, rfl⟩
  have hg : (debugCode.attempt eval codeBlock).2.countP Event.isGroup = 0 := by
    rw [List.countP_eq_zero]
    intro ev hev
    simp [(hbody ev hev).1]
  have he : (debugCode.attempt eval codeBlock).2.countP Event.isGroupEnd = 0 := by
    rw [List.countP_eq_zero]
    intro ev hev
    simp [(hbody ev hev).2]
  refine ⟨?_, ?_, ?_, ?_⟩
  · simp [debugCode]
  · have hshape : (debugCode eval codeBlock).2
        = (Event.group [.string "Debugging Code Block"] :: (debugCode.attempt eval codeBlock).2)
            ++ [Event.groupEnd] := by
      simp [debugCode]
    rw [hshape, List.getLast?_concat]
  · simp [debugCode, List.countP_append, List.countP_cons, hg, Event.isGroup]
  · simp [debugCode, List.countP_append, List.countP_cons, he, Event.isGroupEnd]

/-- C4, as stated, fails: `eval` of the text 1 succeeds with the number 1, and
`checkSyntax` returns its fixed report, not the number; indexing the example
object by user and age succeeds with undefined, and `safeAccess` returns null;
`fetch` succeeds with a 404 response, and `safeFetch` resolves to null, which
is neither the response nor its decoded body. -/
theorem passthrough_fails_for_three_wrappers :
    (exampleEval "1" = .ok (.number 1) ∧
      checkSyntax exampleEval "1" = .ok (.string "No syntax errors found.") ∧
      checkSyntax exampleEval "1" ≠ .ok (.number 1)) ∧
    (reached exampleObj (split "user.age" '.') = some .undefined ∧
      (safeAccess exampleObj "user.age" none).1 = .ok .null ∧
      (safeAccess exampleObj "user.age" none).1 ≠ .ok .undefined) ∧
    ((∃ r, notFoundFetch "/api" (.object []) = .ok r ∧ r.json = .ok (.object [])) ∧
      (safeFetch notFoundFetch "/api" none).1 = .ok .null ∧
      (safeFetch notFoundFetch "/api" none).1 ≠ .ok (.object [])) := by
  refine ⟨⟨rfl, rfl, ?_⟩, ⟨rfl, rfl, ?_⟩, ⟨⟨_, rfl, rfl⟩, rfl, ?_⟩⟩
  · intro h
    simp [checkSyntax, exampleEval] at h
  · intro h
    have h2 : (safeAccess exampleObj "user.age" none).1 = .ok .null := rfl
    rw [h2] at h
    simp at h
  · intro h
    have h2 : (safeFetch notFoundFetch "/api" none).1 = .ok .null := rfl
    rw [h2] at h
    simp at h

/-- C4, amended: when the wrapped primitive succeeds, `handleTypeError`,
`handleRangeError`, `safeDecodeURI`, `safeEval`, `safeJSONParse` and
`debugCode` return exactly its result; `safeQuerySelector` does so when the
result is an element (a truthy value) or null; `safeAccess` returns the value
the walk reached when that value is not undefined; `safeFetch` resolves to the
decoded body when the response is ok and the decode succeeds; `checkSyntax`
returns its fixed report. -/
theorem passthrough_on_success :
    (∀ (fn : List JSValue → Completion JSValue) (args : List JSValue) (v : JSValue),
      fn args = .ok v → handleTypeError fn args = (.ok v, [])) ∧
    (∀ (fn : List JSValue → Completion JSValue) (args : List JSValue) (v : JSValue),
      fn args = .ok v → handleRangeError fn args = (.ok v, [])) ∧
    (∀ (decodeURI : String → Completion JSValue) (uri : String) (v : JSValue),
      decodeURI uri = .ok v → safeDecodeURI decodeURI uri = (.ok v, [])) ∧
    (∀ (eval : String → Completion JSValue) (code : String) (v : JSValue),
      eval code = .ok v → safeEval eval code = (.ok v, [])) ∧
    (∀ (parse : String → Completion JSValue) (text : String) (d : Option JSValue)
      (v : JSValue), parse text = .ok v → safeJSONParse parse text d = (.ok v, [])) ∧
    (∀ (eval : String → Completion JSValue) (code : String) (v : JSValue),
      eval code = .ok v → (debugCode eval code).1 = .ok v) ∧
    (∀ (document : JSValue) (querySelector : JSValue → String → Completion JSValue)
      (selector : String) (p : Option JSValue) (v : JSValue),
      querySelector (paramDefault p document) selector = .ok v →
      (v.truthy = true ∨ v = .null) →
      (safeQuerySelector document querySelector selector p).1 = .ok v) ∧
    (∀ (obj : JSValue) (path : String) (d : Option JSValue) (v : JSValue),
      reached obj (split path '.') = some v → v ≠ .undefined →
      safeAccess obj path d = (.ok v, [])) ∧
    (∀ (fetch : String → JSValue → Completion Response) (url : String)
      (o : Option JSValue) (r : Response) (v : JSValue),
      fetch url (paramDefault o (.object [])) = .ok r → r.ok = true → r.json = .ok v →
      (safeFetch fetch url o).1 = .ok v) ∧
    (∀ (eval : String → Completion JSValue) (code : String) (v : JSValue),
      eval code = .ok v → checkSyntax eval code = .ok (.string "No syntax errors found.")) := by
  refine ⟨?_, ?_, ?_, ?_, ?_, ?_, ?_, ?_, ?_, ?_⟩
  · intro fn args v h
    simp [handleTypeError, h]
  · intro fn args v h
    simp [handleRangeError, h]
  · intro decodeURI uri v h
    simp [safeDecodeURI, h]
  · intro eval code v h
    simp [safeEval, h]
  · intro parse text d v h
    simp [safeJSONParse, h]
  · intro eval code v h
    simp [debugCode, debugCode.attempt, h]
  · intro document querySelector selector p v h hv
    rcases hv with ht | rfl
    · simp [safeQuerySelector, h, ht]
    · simp [safeQuerySelector, h, JSValue.truthy, newError, messageLine_error]
  · intro obj path d v h hv
    have hu : v.isUndefined = false := by
      cases v <;> simp_all [JSValue.isUndefined]
    simp [safeAccess, walk_eq_lookupSpec, lookupSpec, h, hu]
  · intro fetch url o r v h hok hj
    simp [safeFetch, h, hok, hj]
  · intro eval code v h
    simp [checkSyntax, h]

/-- Witness of C4, amended: each wrapper is run on an input on which its
primitive succeeds. -/
theorem passthrough_on_success_witness :
    safeEval exampleEval "1" = (.ok (.number 1), []) ∧
    (debugCode exampleEval "1").1 = .ok (.number 1) ∧
    safeJSONParse exampleJSONParse "\x7b\"name\":\"John\"\x7d" none
      = (.ok (.object [("name", .string "John")]), []) ∧
    (safeQuerySelector (.object []) exampleQuerySelector "#missing" none).1 = .ok .null ∧
    safeAccess exampleObj "user.name" none = (.ok (.string "John"), []) ∧
    (safeFetch okFetch "/api" none).1 = .ok (.object [("name", .string "John")]) ∧
    checkSyntax exampleEval "1" = .ok (.string "No syntax errors found.") :=
  ⟨passthrough_on_success.2.2.2.1 exampleEval "1" _ rfl,
   passthrough_on_success.2.2.2.2.2.1 exampleEval "1" _ rfl,
   passthrough_on_success.2.2.2.2.1 exampleJSONParse _ none _ rfl,
   passthrough_on_success.2.2.2.2.2.2.1 (.object []) exampleQuerySelector "#missing" none _
     rfl (Or.inr rfl),
   passthrough_on_success.2.2.2.2.2.2.2.1 exampleObj "user.name" none _ rfl
     (by intro h; cases h),
   passthrough_on_success.2.2.2.2.2.2.2.2.1 okFetch "/api" none _ _ rfl rfl rfl,
   passthrough_on_success.2.2.2.2.2.2.2.2.2 exampleEval "1" _ rfl⟩

/-- C5 at the failing input: the request is aborted with the reason null, so
`fetch` rejects with null; the handler reads `error.message` of null, which
raises a TypeError, and the promise of `safeFetch` is rejected with it. -/
theorem safeFetch_rejects_on_null_reason :
    abortedFetch "/api" (paramDefault none (.object [])) = .error .null ∧
    safeFetch abortedFetch "/api" none
      = (.error (newError .TypeError "Cannot read properties of null"), [.request "/api"]) :=
  ⟨rfl, rfl⟩

/-- What `safeFetch` does on its other paths. A response that is not ok gives
null and the body is not decoded; a failure that is an error object with a
string message, of the request or of the decode, gives null. -/
theorem safeFetch_absorbs_error_objects (fetch : String → JSValue → Completion Response)
    (url : String) (o : Option JSValue) :
    (∀ r, fetch url (paramDefault o (.object [])) = .ok r → r.ok = false →
      (safeFetch fetch url o).1 = .ok .null ∧
      (safeFetch fetch url o).2.countP Event.isDecode = 0) ∧
    (∀ cls message stack,
      fetch url (paramDefault o (.object [])) = .error (.error cls (.string message) stack) →
      (safeFetch fetch url o).1 = .ok .null) ∧
    (∀ r cls message stack, fetch url (paramDefault o (.object [])) = .ok r → r.ok = true →
      r.json = .error (.error cls (.string message) stack) →
      (safeFetch fetch url o).1 = .ok .null) := by
  refine ⟨?_, ?_, ?_⟩
  · intro r h hok
    simp [safeFetch, h, hok, newError, messageLine_error, List.countP_cons, Event.isDecode]
  · intro cls message stack h
    simp [safeFetch, h, messageLine_error]
  · intro r cls message stack h hok hj
    simp [safeFetch, h, hok, hj, messageLine_error]

/-- The other paths of `safeFetch` on concrete responses: a 404 response, a
body that does not decode, and a request that fails with a TypeError. -/
theorem safeFetch_absorbs_error_objects_examples :
    safeFetch notFoundFetch "/api" none
      = (.ok .null,
         [.request "/api", .error [.string "Network Error: HTTP error! status: 404"]]) ∧
    (safeFetch badBodyFetch "/api" none).1 = .ok .null ∧
    (safeFetch failedFetch "/api" none).1 = .ok .null := by
  refine ⟨?_, ?_, ?_⟩
  · simp [safeFetch, notFoundFetch, newError, messageLine_error, paramDefault]
    decide
  · exact (safeFetch_absorbs_error_objects badBodyFetch "/api" none).2.2 _ _ _ _
      rfl rfl rfl
  · exact (safeFetch_absorbs_error_objects failedFetch "/api" none).2.1 _ _ _ rfl

/-- C7 at the failing input: evaluating the text raises null (or undefined);
the handler of `checkSyntax` reads `error.message` of it, which raises a
TypeError, so `checkSyntax` re-signals and returns no string. -/
theorem checkSyntax_raises_on_thrown_null :
    exampleEval "throw null" = .error .null ∧
    checkSyntax exampleEval "throw null"
      = .error (newError .TypeError "Cannot read properties of null") ∧
    exampleEval "throw undefined" = .error .undefined ∧
    checkSyntax exampleEval "throw undefined"
      = .error (newError .TypeError "Cannot read properties of undefined") :=
  ⟨rfl, rfl, rfl, rfl⟩

/-- What `checkSyntax` does on its other paths: the fixed report when the
evaluation succeeds, a text that starts with the syntax label when a
SyntaxError with a string message is raised, and a text that starts with the
other label when any other error object with a string message is raised. -/
theorem checkSyntax_reports (eval : String → Completion JSValue) (code : String) :
    (∀ v, eval code = .ok v → checkSyntax eval code = .ok (.string "No syntax errors found.")) ∧
    (∀ message stack, eval code = .error (.error .SyntaxError (.string message) stack) →
      checkSyntax eval code = .ok (.string ("Syntax Error: " ++ message))) ∧
    (∀ cls message stack, eval code = .error (.error cls (.string message) stack) →
      cls ≠ .SyntaxError →
      checkSyntax eval code = .ok (.string ("Other error: " ++ message))) := by
  refine ⟨?_, ?_, ?_⟩
  · intro v h
    simp [checkSyntax, h]
  · intro message stack h
    simp [checkSyntax, h, instanceOf, messageLine_error]
  · intro cls message stack h hc
    simp [checkSyntax, h, instanceOf, messageLine_error, hc]

/-- C8 at the failing input: evaluating the text raises null; the handler of
`safeEval` reads `error.message` of null and the handler of `debugCode` reads
`error.constructor` of null; each read raises a TypeError, which propagates
to the caller. -/
theorem safeEval_debugCode_raise_on_thrown_null :
    exampleEval "throw null" = .error .null ∧
    safeEval exampleEval "throw null"
      = (.error (newError .TypeError "Cannot read properties of null"), []) ∧
    (debugCode exampleEval "throw null").1
      = .error (newError .TypeError "Cannot read properties of null") ∧
    (safeEval exampleEval "throw undefined").1
      = .error (newError .TypeError "Cannot read properties of undefined") ∧
    (debugCode exampleEval "throw undefined").1
      = .error (newError .TypeError "Cannot read properties of undefined") :=
  ⟨rfl, rfl, rfl, rfl, rfl⟩

/-- What `safeEval` and `debugCode` do when the thrown value is an error
object with a string message: the failure is swallowed and null is returned. -/
theorem safeEval_debugCode_swallow_error_objects (eval : String → Completion JSValue)
    (code : String) (cls : ErrorClass) (message stack : String)
    (h : eval code = .error (.error cls (.string message) stack)) :
    (safeEval eval code).1 = .ok .null ∧ (debugCode eval code).1 = .ok .null := by
  refine ⟨?_, ?_⟩
  · simp [safeEval, h, messageLine_error]
  · simp [debugCode, debugCode.attempt, h, getProp]

end Script
